import Mathlib

/- Shallow embedding of irradpy's REST2v5 clear-sky model
   (src/build/lib/irradpy/model/clearSkyRadiation_REST2v5.py).

   Every numpy operation in `clear_sky_REST2V5` is element-wise, so the model
   follows one element of each input array through the computation: a Lean
   function on exact reals.  Floating-point rounding is not modelled; the
   NaN round-trip of the quality-control block (negatives are first set to
   np.nan, then every NaN is set to 0) is modelled both by its net effect on
   real elements (`qcFloor`) and explicitly on a real-or-NaN value type
   (`FVal`, `qcStage`).  The complex-valued air-mass and band-2 aerosol
   formulas are modelled with Mathlib's complex power, matching numpy's
   principal-branch `np.power` on complex arrays. -/

/-- One numpy masked assignment `x[x > hi] = hi`, at a single element. -/
def maskAssignGT {α : Type} [LinearOrder α] (hi x : α) : α :=
  if x > hi then hi else x

/-- One numpy masked assignment `x[x < lo] = lo`, at a single element. -/
def maskAssignLT {α : Type} [LinearOrder α] (lo x : α) : α :=
  if x < lo then lo else x

/-- The two-step clamp used for every atmospheric field in
`clear_sky_REST2V5` (lines 60-71): first `x[x > hi] = hi`, then
`x[x < lo] = lo`. -/
def clampField {α : Type} [LinearOrder α] (hi lo x : α) : α :=
  maskAssignLT lo (maskAssignGT hi x)

/-- Zenith angle converted to degrees, `zenith_angle * 180. / np.pi`
(also `np.rad2deg`). -/
noncomputable def degOf (θ : ℝ) : ℝ := θ * 180 / Real.pi

/-- `np.deg2rad`, used by the orchestrator `REST2v5` on the zenith angles
returned (in degrees) by the solar-geometry collaborator. -/
noncomputable def deg2rad (x : ℝ) : ℝ := x * Real.pi / 180

/-- Net effect on one real element of the quality-control block
(lines 253-261): `x[x < 0] = np.nan` followed by `x[np.isnan(x)] = 0`
turns a negative real into 0 and leaves other reals unchanged. -/
noncomputable def qcFloor (x : ℝ) : ℝ := if x < 0 then 0 else x

/-- Line 243: `dni[np.rad2deg(zenith_angle) > 90] = 0` at one element,
where `b` is the summed beam irradiance `Ebn1 + Ebn2`. -/
noncomputable def dniAfter (θ b : ℝ) : ℝ := if degOf θ > 90 then 0 else b

/-- Lines 240 and 244: `Ebh = (Ebn1 + Ebn2) * cos(zenith)` followed by
`Ebh[np.rad2deg(zenith_angle) > 90] = 0`, at one element. -/
noncomputable def ebhAfter (θ b : ℝ) : ℝ :=
  if degOf θ > 90 then 0 else b * Real.cos θ

/-- Line 248: `dhi[np.rad2deg(zenith_angle) > 90] = 0` at one element,
where `d` is the summed diffuse irradiance `Edp1 + Edd1 + Edp2 + Edd2`. -/
noncomputable def dhiAfter (θ d : ℝ) : ℝ := if degOf θ > 90 then 0 else d

/-- Lines 238-263 of `clear_sky_REST2V5` at one element: from the summed
beam irradiance `beam = Ebn1 + Ebn2` and summed diffuse irradiance
`dhiPre = Edp1 + Edd1 + Edp2 + Edd2`, apply the below-horizon zeroing,
form `ghi = Ebh + dhi`, and apply the quality-control floor to each of
the three returned values. -/
noncomputable def nightQC (θ beam dhiPre : ℝ) : ℝ × ℝ × ℝ :=
  (qcFloor (ebhAfter θ beam + dhiAfter θ dhiPre),
   qcFloor (dniAfter θ beam),
   qcFloor (dhiAfter θ dhiPre))

/-- A floating-point array element as seen by the quality-control block:
either NaN or a real value.  (Infinities do not arise in the block itself,
whose only operations are comparison and assignment.) -/
inductive FVal where
  | nan : FVal
  | val : ℝ → FVal

/-- `x[x < lower] = np.nan` with `lower = 0`, at one element; a NaN element
is unchanged because numpy comparisons against NaN are False. -/
noncomputable def qcNegToNan : FVal → FVal
  | FVal.nan => FVal.nan
  | FVal.val v => if v < 0 then FVal.nan else FVal.val v

/-- `x[np.isnan(x)] = 0` at one element. -/
def qcNanToZero : FVal → FVal
  | FVal.nan => FVal.val 0
  | FVal.val v => FVal.val v

/-- The full quality-control block (lines 253-261) at one element:
negatives become NaN, then every NaN becomes 0. -/
noncomputable def qcStage (x : FVal) : FVal := qcNanToZero (qcNegToNan x)

/-- The distinct failures `ClearSkyREST2v5.__init__` (lines 10-16) can
raise: the explicit shape-mismatch and range exceptions of the source, and
the `ValueError` numpy's `np.max` raises on a zero-size array. -/
inductive InitError where
  | shapeMismatch : InitError
  | emptyReduction : InitError
  | latRange : InitError
  | lonRange : InitError
deriving DecidableEq

/-- `ClearSkyREST2v5.__init__` validation (lines 10-16).  Arrays are
modelled as lists (shape equality as length equality).  Checks run in
source order: shape first, then `np.max(np.abs(lat)) > 90`, then
`np.max(np.abs(lon)) > 180`; `np.max` over an empty array raises, which
the model reports as `InitError.emptyReduction`. -/
def initREST2 (lat lon : List ℚ) : Except InitError Unit :=
  if lat.length ≠ lon.length then Except.error InitError.shapeMismatch
  else if lat.isEmpty then Except.error InitError.emptyReduction
  else if lat.any (fun x => |x| > 90) then Except.error InitError.latRange
  else if lon.any (fun y => |y| > 180) then Except.error InitError.lonRange
  else Except.ok ()

/-- The complex quantity whose reciprocal magnitude is an air mass
(lines 73-92): `cos(zenith) + a * θdeg^b / (c - θdeg)^d`, computed on the
complex array `complex_temp = zenith * 180 / pi` exactly as the source
does, with numpy's principal-branch complex `np.power`. -/
noncomputable def amKernel (a b c d θ : ℝ) : ℂ :=
  (Real.cos θ : ℂ) +
    (a : ℂ) * (degOf θ : ℂ) ^ (b : ℂ) / ((c - degOf θ : ℝ) : ℂ) ^ (d : ℂ)

/-- `np.abs(np.power(kernel, -1))`: the air-mass pattern shared by the four
relative air masses. -/
noncomputable def airMass (a b c d θ : ℝ) : ℝ :=
  Complex.abs ((amKernel a b c d θ)⁻¹)

/-- Air mass for aerosol extinction (lines 76-77). -/
noncomputable def ama (θ : ℝ) : ℝ := airMass 0.16851 0.18198 95.318 1.9542 θ

/-- Air mass for water-vapour absorption (lines 79-80). -/
noncomputable def amw (θ : ℝ) : ℝ := airMass 0.10648 0.11423 93.781 1.9203 θ

/-- Air mass for ozone absorption (lines 85-86). -/
noncomputable def amo (θ : ℝ) : ℝ := airMass 1.0651 0.6379 101.8 2.2694 θ

/-- Air mass for Rayleigh scattering and uniformly mixed gases
(lines 88-89). -/
noncomputable def amR (θ : ℝ) : ℝ := airMass 0.48353 0.095846 96.741 1.754 θ

/-- Pressure-corrected Rayleigh/gas air mass (lines 90-92):
`np.abs((pressure / 1013.25) * np.power(kernel, -1))`. -/
noncomputable def amRe (p θ : ℝ) : ℝ :=
  Complex.abs (((p / 1013.25 : ℝ) : ℂ) * (amKernel 0.48353 0.095846 96.741 1.754 θ)⁻¹)

/-- Real-domain form of the air-mass pattern, following the spec's words
(section 4.2): the magnitude `|cos θ + a * θdeg^b / (c - θdeg)^d|⁻¹`
computed entirely with real powers. -/
noncomputable def realAirMass (a b c d θ : ℝ) : ℝ :=
  |Real.cos θ + a * degOf θ ^ b / (c - degOf θ) ^ d|⁻¹

/-- Angstrom turbidity (lines 94-97): `AOD550 / 0.55 ** (-alpha)` with the
already-clamped Angstrom exponent, then clamped to `[0, 1.1]` by the two
masked assignments. -/
noncomputable def angBeta (aod550 α : ℝ) : ℝ :=
  clampField 1.1 0 (aod550 / (0.55 : ℝ) ^ (-α))

/-- Line 131: `AB1 = ang_beta` (band 1's alias of the shared turbidity). -/
noncomputable def AB1 (aod550 α : ℝ) : ℝ := angBeta aod550 α

/-- Line 188: `AB2 = ang_beta` (band 2's alias of the shared turbidity). -/
noncomputable def AB2 (aod550 α : ℝ) : ℝ := angBeta aod550 α

/-- Lines 73-263 of `clear_sky_REST2V5` at one element, with the six
atmospheric inputs already clamped (the clamping of lines 60-71 is applied
by `clear_sky_REST2V5` below).  Local names follow the source; Python
re-binds `g1, g2` and `h1, h2` between band 1 and band 2, so the NO2
coefficients are `gn*`, the band-1 water coefficients `hw*`, the band-2
water coefficients `cw*`, the aerosol-correction coefficients `ga*` (band
1) and `hc*` (band 2).  `ta1` uses numpy's real `np.power`, modelled by
the real power (numpy yields NaN for a negative base and fractional
exponent, which the quality-control block turns into 0); `ta2` follows the
source's explicit complex path. -/
noncomputable def clear_sky_afterClamp (θ eext p w o n aod550 α ρ : ℝ) :
    ℝ × ℝ × ℝ :=
  let amaV := ama θ
  let amwV := amw θ
  let amoV := amo θ
  let amRV := amR θ
  let amReV := amRe p θ
  let beta1 := AB1 aod550 α
  let beta2 := AB2 aod550 α
  -- Band 1
  let TR1 := (1 + 1.8169 * amReV - 0.033454 * amReV ^ 2) /
      (1 + 2.063 * amReV + 0.31978 * amReV ^ 2)
  let Tg1 := (1 + 0.95885 * amReV + 0.012871 * amReV ^ 2) /
      (1 + 0.96321 * amReV + 0.015455 * amReV ^ 2)
  let f1 := o * (10.979 - 8.5421 * o) / (1 + 2.0115 * o + 40.189 * o ^ 2)
  let f2 := o * (-0.027589 - 0.005138 * o) / (1 - 2.4857 * o + 13.942 * o ^ 2)
  let f3 := o * (10.995 - 5.5001 * o) / (1 + 1.6784 * o + 42.406 * o ^ 2)
  let To1 := (1 + f1 * amoV + f2 * amoV ^ 2) / (1 + f3 * amoV)
  let gn1 := (0.17499 + 41.654 * n - 2146.4 * n ^ 2) / (1 + 22295 * n ^ 2)
  let gn2 := n * (-1.2134 + 59.324 * n) / (1 + 8847.8 * n ^ 2)
  let gn3 := (0.17499 + 61.658 * n + 9196.4 * n ^ 2) / (1 + 74109 * n ^ 2)
  let Tn1 := maskAssignGT 1 ((1 + gn1 * amwV + gn2 * amwV ^ 2) / (1 + gn3 * amwV))
  let Tn1166 := maskAssignGT 1 ((1 + gn1 * 1.66 + gn2 * (1.66 : ℝ) ^ 2) / (1 + gn3 * 1.66))
  let hw1 := w * (0.065445 + 0.00029901 * w) / (1 + 1.2728 * w)
  let hw2 := w * (0.065687 + 0.0013218 * w) / (1 + 1.2008 * w)
  let Tw1 := (1 + hw1 * amwV) / (1 + hw2 * amwV)
  let Tw1166 := (1 + hw1 * 1.66) / (1 + hw2 * 1.66)
  let d0 := 0.57664 - 0.024743 * α
  let d1 := (0.093942 - 0.2269 * α + 0.12848 * α ^ 2) / (1 + 0.6418 * α)
  let d2 := (-0.093819 + 0.36668 * α - 0.12775 * α ^ 2) / (1 - 0.11651 * α)
  let d3 := α * (0.15232 - 0.087214 * α + 0.012664 * α ^ 2) /
      (1 - 0.90454 * α + 0.26167 * α ^ 2)
  let ua1 := Real.log (1 + amaV * beta1)
  let lam1 := (d0 + d1 * ua1 + d2 * ua1 ^ 2) / (1 + d3 * ua1 ^ 2)
  let ta1 := |beta1 * lam1 ^ (-α)|
  let TA1 := Real.exp (-amaV * ta1)
  let TAS1 := Real.exp (-amaV * 0.92 * ta1)
  let BR1 := 0.5 * (0.89013 - 0.0049558 * amRV + 0.000045721 * amRV ^ 2)
  let ga0 := (3.715 + 0.368 * amaV + 0.036294 * amaV ^ 2) / (1 + 0.0009391 * amaV ^ 2)
  let ga1 := (-0.164 - 0.72567 * amaV + 0.20701 * amaV ^ 2) / (1 + 0.0019012 * amaV ^ 2)
  let ga2 := (-0.052288 + 0.31902 * amaV + 0.17871 * amaV ^ 2) / (1 + 0.0069592 * amaV ^ 2)
  let F1 := (ga0 + ga1 * ta1) / (1 + ga2 * ta1)
  let rs1 := (0.13363 + 0.00077358 * α + beta1 * (0.37567 + 0.22946 * α) / (1 - 0.10832 * α)) /
      (1 + beta1 * (0.84057 + 0.68683 * α) / (1 - 0.08158 * α))
  let rg := ρ
  -- Band 2
  let TR2 := (1 - 0.010394 * amReV) / (1 - 0.00011042 * amReV ^ 2)
  let Tg2 := (1 + 0.27284 * amReV - 0.00063699 * amReV ^ 2) / (1 + 0.30306 * amReV)
  let To2 := (1 : ℝ)
  let Tn2 := (1 : ℝ)
  let Tn2166 := (1 : ℝ)
  let cw1 := w * (19.566 - 1.6506 * w + 1.0672 * w ^ 2) /
      (1 + 5.4248 * w + 1.6005 * w ^ 2)
  let cw2 := w * (0.50158 - 0.14732 * w + 0.047584 * w ^ 2) /
      (1 + 1.1811 * w + 1.0699 * w ^ 2)
  let cw3 := w * (21.286 - 0.39232 * w + 1.2692 * w ^ 2) /
      (1 + 4.8318 * w + 1.412 * w ^ 2)
  let cw4 := w * (0.70992 - 0.23155 * w + 0.096514 * w ^ 2) /
      (1 + 0.44907 * w + 0.75425 * w ^ 2)
  let Tw2 := (1 + cw1 * amwV + cw2 * amwV ^ 2) / (1 + cw3 * amwV + cw4 * amwV ^ 2)
  let Tw2166 := (1 + cw1 * 1.66 + cw2 * (1.66 : ℝ) ^ 2) /
      (1 + cw3 * 1.66 + cw4 * (1.66 : ℝ) ^ 2)
  let e0 := (1.183 - 0.022989 * α + 0.020829 * α ^ 2) / (1 + 0.11133 * α)
  let e1 := (-0.50003 - 0.18329 * α + 0.23835 * α ^ 2) / (1 + 1.6756 * α)
  let e2 := (-0.50001 + 1.1414 * α + 0.0083589 * α ^ 2) / (1 + 11.168 * α)
  let e3 := (-0.70003 - 0.73587 * α + 0.51509 * α ^ 2) / (1 + 4.7665 * α)
  let ua2 := Real.log (1 + amaV * beta2)
  let lam2 := (e0 + e1 * ua2 + e2 * ua2 ^ 2) / (1 + e3 * ua2)
  let ta2 := Complex.abs (Complex.ofReal beta2 * Complex.ofReal lam2 ^ Complex.ofReal (-α))
  let TA2 := Real.exp (-1 * amaV * ta2)
  let TAS2 := Real.exp (-1 * amaV * 0.84 * ta2)
  let BR2 := (0.5 : ℝ)
  let Ba := 1 - Real.exp (-0.6931 - 1.8326 * Real.cos θ)
  let hc0 := (3.4352 + 0.65267 * amaV + 0.00034328 * amaV ^ 2) /
      (1 + 0.034388 * amaV ^ (1.5 : ℝ))
  let hc1 := (1.231 - 1.63853 * amaV + 0.20667 * amaV ^ 2) /
      (1 + 0.1451 * amaV ^ (1.5 : ℝ))
  let hc2 := (0.8889 - 0.55063 * amaV + 0.50152 * amaV ^ 2) /
      (1 + 0.14865 * amaV ^ (1.5 : ℝ))
  let F2 := (hc0 + hc1 * ta2) / (1 + hc2 * ta2)
  let rs2 := (0.010191 + 0.00085547 * α + beta2 * (0.14618 + 0.062758 * α) / (1 - 0.19402 * α)) /
      (1 + beta2 * (0.58101 + 0.17426 * α) / (1 - 0.17586 * α))
  -- Irradiance, band 1 + band 2
  let E0n1 := eext * 0.46512
  let Ebn1 := E0n1 * TR1 * Tg1 * To1 * Tn1 * Tw1 * TA1
  let Edp1 := E0n1 * Real.cos θ * To1 * Tg1 * Tn1166 * Tw1166 *
      (BR1 * (1 - TR1) * TA1 ^ (0.25 : ℝ) + Ba * F1 * TR1 * (1 - TAS1 ^ (0.25 : ℝ)))
  let Edd1 := rg * rs1 * (Ebn1 * Real.cos θ + Edp1) / (1 - rg * rs1)
  let E0n2 := eext * 0.51951
  let Ebn2 := E0n2 * TR2 * Tg2 * To2 * Tn2 * Tw2 * TA2
  let Edp2 := E0n2 * Real.cos θ * To2 * Tg2 * Tn2166 * Tw2166 *
      (BR2 * (1 - TR2) * TA2 ^ (0.25 : ℝ) + Ba * F2 * TR2 * (1 - TAS2 ^ (0.25 : ℝ)))
  let Edd2 := rg * rs2 * (Ebn2 * Real.cos θ + Edp2) / (1 - rg * rs2)
  nightQC θ (Ebn1 + Ebn2) (Edp1 + Edd1 + Edp2 + Edd2)

/-- `clear_sky_REST2V5` at one element, in the source's argument order
(zenith angle, Eext, pressure, water vapour, ozone, nitrogen dioxide,
AOD550, Angstrom exponent, surface albedo): clamp the six atmospheric
fields (lines 60-71), then run the rest of the computation.  Returns
`(ghi, dni, dhi)`. -/
noncomputable def clear_sky_REST2V5 (θ eext p w o n aod550 α ρ : ℝ) :
    ℝ × ℝ × ℝ :=
  clear_sky_afterClamp θ eext (clampField 1100 300 p) (clampField 10 0 w)
    (clampField 0.6 0 o) (clampField 0.03 0 n) aod550 (clampField 2.5 0 α)
    (clampField 1 0 ρ)

/-- The mutable atmospheric arguments of `clear_sky_REST2V5`, at one
element.  The source mutates exactly these six caller arrays in place
(lines 60-71); `zenith_angle`, `Eext` and `AOD550` are never assigned to. -/
structure AtmArgs where
  pressure : ℝ
  water_vapour : ℝ
  ozone : ℝ
  nitrogen_dioxide : ℝ
  Angstrom_exponent : ℝ
  surface_albedo : ℝ

/-- The twelve in-place masked assignments of lines 60-71, as a state
transformer on the caller's argument arrays (one element each). -/
noncomputable def mutateClamp (a : AtmArgs) : AtmArgs :=
  { pressure := maskAssignLT 300 (maskAssignGT 1100 a.pressure)
    water_vapour := maskAssignLT 0 (maskAssignGT 10 a.water_vapour)
    ozone := maskAssignLT 0 (maskAssignGT 0.6 a.ozone)
    nitrogen_dioxide := maskAssignLT 0 (maskAssignGT 0.03 a.nitrogen_dioxide)
    Angstrom_exponent := maskAssignLT 0 (maskAssignGT 2.5 a.Angstrom_exponent)
    surface_albedo := maskAssignLT 0 (maskAssignGT 1 a.surface_albedo) }

/-- `clear_sky_REST2V5` with its side effect made explicit: the call
returns `(ghi, dni, dhi)` together with the final state of the six mutable
argument arrays. -/
noncomputable def clear_sky_call (θ eext aod550 : ℝ) (a : AtmArgs) :
    (ℝ × ℝ × ℝ) × AtmArgs :=
  let a2 := mutateClamp a
  (clear_sky_afterClamp θ eext a2.pressure a2.water_vapour a2.ozone
      a2.nitrogen_dioxide aod550 a2.Angstrom_exponent a2.surface_albedo,
   a2)

/-- The eight fields returned by the `extract_for_MERRA2` collaborator, in
source order (line 295). -/
structure AtmOut where
  tot_aer_ext : ℝ
  aod550 : ℝ
  angstrom : ℝ
  ozone : ℝ
  surface_albedo : ℝ
  water_vapour : ℝ
  pressure : ℝ
  nitrogen_dioxide : ℝ

/-- One (site, time) element of the orchestrator `REST2v5` (lines
266-347): query the solar-geometry and extraction collaborators for this
site and timestamp, convert the zenith angle to radians, and run
`clear_sky_REST2V5`.  The collaborators are parameters: both orchestration
paths query them element-wise for the same (lat, lon, elev, time), which
is the claim's "same collaborator outputs for equivalent queries". -/
noncomputable def elementREST2 {τ : Type} (zen : ℝ → ℝ → τ → ℝ)
    (eext : τ → ℝ) (atm : ℝ → ℝ → ℝ → τ → AtmOut)
    (lat lon elev : ℝ) (t : τ) : ℝ × ℝ × ℝ :=
  let a := atm lat lon elev t
  clear_sky_REST2V5 (deg2rad (zen lat lon t)) (eext t) a.pressure
    a.water_vapour a.ozone a.nitrogen_dioxide a.aod550 a.angstrom
    a.surface_albedo

/-- The homogeneous (`same_flag == 1`) path of `REST2v5` (lines 290-315):
one shared time grid, the whole site-by-time batch computed in one
vectorized call.  A site is `(lat, lon, elev)`; the result holds one
`(ghi, dni, dhi)` row per site, one entry per timestamp. -/
noncomputable def homPath {τ : Type} (zen : ℝ → ℝ → τ → ℝ) (eext : τ → ℝ)
    (atm : ℝ → ℝ → ℝ → τ → AtmOut) (sites : List (ℝ × ℝ × ℝ))
    (grid : List τ) : List (List (ℝ × ℝ × ℝ)) :=
  sites.map (fun s => grid.map (fun t => elementREST2 zen eext atm s.1 s.2.1 s.2.2 t))

/-- The heterogeneous (`same_flag == 0`) path of `REST2v5` (lines
317-347): iterate over sites, each with its own time grid. -/
noncomputable def hetPath {τ : Type} (zen : ℝ → ℝ → τ → ℝ) (eext : τ → ℝ)
    (atm : ℝ → ℝ → ℝ → τ → AtmOut) (sites : List (ℝ × ℝ × ℝ))
    (grids : List (List τ)) : List (List (ℝ × ℝ × ℝ)) :=
  (sites.zip grids).map
    (fun sg => sg.2.map (fun t => elementREST2 zen eext atm sg.1.1 sg.1.2.1 sg.1.2.2 t))

/-- Lines 281-288: `same_flag` starts at 1 and is cleared when any site's
time grid differs from the first site's in shape or in any element;
list equality covers both. -/
def sameFlag {τ : Type} [DecidableEq τ] (grids : List (List τ)) : Bool :=
  (List.range (grids.length - 1)).all
    (fun i => decide (grids.getD (i + 1) [] = grids.getD 0 []))

/-- The orchestrator's dispatch (lines 290 and 317): the homogeneous
batched path when every grid matches the first, the per-site path
otherwise. -/
noncomputable def REST2v5run {τ : Type} [DecidableEq τ]
    (zen : ℝ → ℝ → τ → ℝ) (eext : τ → ℝ) (atm : ℝ → ℝ → ℝ → τ → AtmOut)
    (sites : List (ℝ × ℝ × ℝ)) (grids : List (List τ)) :
    List (List (ℝ × ℝ × ℝ)) :=
  if sameFlag grids then homPath zen eext atm sites (grids.headD [])
  else hetPath zen eext atm sites grids

/-- The second masked assignment guarantees the clamped value is at least
the lower bound, whatever the inputs. -/
theorem le_clampField (hi lo x : ℝ) : lo ≤ clampField hi lo x := by
  unfold clampField maskAssignLT
  split_ifs with h
  · exact le_refl lo
  · exact le_of_not_lt h

/-- When the bounds are ordered, the clamped value is at most the upper
bound. -/
theorem clampField_le (hi lo x : ℝ) (h : lo ≤ hi) : clampField hi lo x ≤ hi := by
  unfold clampField maskAssignLT maskAssignGT
  split_ifs <;> linarith

/-- Clamping is the identity on an already-in-range value. -/
theorem clampField_of_mem (hi lo x : ℝ) (h1 : lo ≤ x) (h2 : x ≤ hi) :
    clampField hi lo x = x := by
  unfold clampField maskAssignGT maskAssignLT
  rw [if_neg (not_lt.mpr h2), if_neg (not_lt.mpr h1)]

/-- Clamping twice equals clamping once. -/
theorem clampField_idem (hi lo x : ℝ) (h : lo ≤ hi) :
    clampField hi lo (clampField hi lo x) = clampField hi lo x :=
  clampField_of_mem hi lo _ (le_clampField hi lo x) (clampField_le hi lo x h)

/-- The quality-control floor never returns a negative value. -/
theorem qcFloor_nonneg (x : ℝ) : 0 ≤ qcFloor x := by
  unfold qcFloor
  split_ifs with h
  · exact le_refl 0
  · exact le_of_not_lt h

/-- Below the horizon all three outputs of the composition stage are 0. -/
theorem nightQC_night (θ b d : ℝ) (h : degOf θ > 90) :
    nightQC θ b d = (0, 0, 0) := by
  simp [nightQC, dniAfter, ebhAfter, dhiAfter, qcFloor, h]

/-- `clear_sky_REST2V5` factors through the composition stage: its value
is `nightQC` of the zenith angle, the summed beam irradiance and the
summed diffuse irradiance. -/
theorem clear_sky_nightQC (θ eext p w o n aod α ρ : ℝ) :
    ∃ b d, clear_sky_REST2V5 θ eext p w o n aod α ρ = nightQC θ b d := by
  unfold clear_sky_REST2V5 clear_sky_afterClamp
  exact ⟨_, _, rfl⟩

/-- The zenith angle 2 rad is 114.6 degrees, beyond the horizon. -/
theorem degOf_two_gt : degOf 2 > 90 := by
  unfold degOf
  rw [gt_iff_lt, lt_div_iff₀ Real.pi_pos]
  nlinarith [Real.pi_lt_d2]

/-- The zenith angle 0 rad is 0 degrees. -/
theorem degOf_zero : degOf 0 = 0 := by
  simp [degOf]

/-- The air-mass value is the reciprocal of the kernel's magnitude. -/
theorem airMass_abs_inv (a b c d θ : ℝ) :
    airMass a b c d θ = (Complex.abs (amKernel a b c d θ))⁻¹ :=
  map_inv₀ Complex.abs _

/-- In the real domain (zenith degrees between 0 and the coefficient `c`)
the complex kernel is the coercion of the real formula. -/
theorem amKernel_ofReal (a b c d θ : ℝ) (h0 : 0 ≤ degOf θ)
    (hc : degOf θ ≤ c) :
    amKernel a b c d θ =
      ((Real.cos θ + a * degOf θ ^ b / (c - degOf θ) ^ d : ℝ) : ℂ) := by
  unfold amKernel
  rw [← Complex.ofReal_cpow h0 b,
    ← Complex.ofReal_cpow (by linarith : (0 : ℝ) ≤ c - degOf θ) d]
  push_cast
  ring

/-- In the real domain the complex air-mass path equals the real-power
formula. -/
theorem airMass_real (a b c d θ : ℝ) (h0 : 0 ≤ degOf θ)
    (hc : degOf θ ≤ c) : airMass a b c d θ = realAirMass a b c d θ := by
  unfold airMass realAirMass
  rw [amKernel_ofReal a b c d θ h0 hc, map_inv₀, Complex.abs_ofReal]

/-- The pressure-corrected air mass is the pressure ratio times the
Rayleigh/gas air mass whenever the pressure is non-negative. -/
theorem amRe_eq (p θ : ℝ) (hp : 0 ≤ p) :
    amRe p θ = p / 1013.25 * amR θ := by
  unfold amRe amR airMass
  rw [map_mul, Complex.abs_ofReal,
    abs_of_nonneg (div_nonneg hp (by norm_num))]

/-- The state transformer of lines 60-71 is idempotent. -/
theorem mutateClamp_idem (a : AtmArgs) :
    mutateClamp (mutateClamp a) = mutateClamp a := by
  unfold mutateClamp
  simp only [AtmArgs.mk.injEq]
  refine ⟨?_, ?_, ?_, ?_, ?_, ?_⟩ <;>
    exact clampField_idem _ _ _ (by norm_num)

/-- When every grid equals the first site's grid, the orchestrator's
`same_flag` scan keeps the flag set. -/
theorem sameFlag_of_all {τ : Type} [DecidableEq τ] (grids : List (List τ))
    (g : List τ) (hall : ∀ gr ∈ grids, gr = g) : sameFlag grids = true := by
  unfold sameFlag
  rw [List.all_eq_true]
  intro i hi
  rw [List.mem_range] at hi
  have h1 : i + 1 < grids.length := by omega
  have h0 : 0 < grids.length := by omega
  rw [List.getD_eq_getElem _ _ h1, List.getD_eq_getElem _ _ h0]
  simp only [decide_eq_true_eq]
  rw [hall _ (List.getElem_mem _), hall _ (List.getElem_mem _)]

/-- The per-site path agrees with the batched path whenever every site's
grid equals the shared grid. -/
theorem hetPath_eq_homPath_aux {τ : Type} (zen : ℝ → ℝ → τ → ℝ)
    (eext : τ → ℝ) (atm : ℝ → ℝ → ℝ → τ → AtmOut) :
    ∀ (sites : List (ℝ × ℝ × ℝ)) (grids : List (List τ)) (g : List τ),
      grids.length = sites.length → (∀ gr ∈ grids, gr = g) →
      hetPath zen eext atm sites grids = homPath zen eext atm sites g := by
  intro sites
  induction sites with
  | nil =>
    intro grids g hlen _
    have hnil : grids = [] := List.length_eq_zero.mp (by simpa using hlen)
    subst hnil
    simp [hetPath, homPath]
  | cons s rest ih =>
    intro grids g hlen hall
    cases grids with
    | nil => exact absurd hlen (by simp)
    | cons gr grest =>
      have hg : gr = g := hall gr (List.mem_cons_self _ _)
      have hrest : hetPath zen eext atm rest grest = homPath zen eext atm rest g :=
        ih grest g (by simpa using hlen) (fun x hx => hall x (List.mem_cons_of_mem _ hx))
      simp only [hetPath, homPath, List.zip_cons_cons, List.map_cons] at hrest ⊢
      rw [hg, hrest]

/-- C1, counterexample: the claim says DHI is unaffected by the
below-horizon rule and subject only to the negative-value floor, so at
zenith angle 2 rad (114.6 degrees, below the horizon) with pre-policy
diffuse irradiance 1 the returned DHI would be `qcFloor 1 = 1`; the code's
line 248 `dhi[np.rad2deg(zenith_angle) > 90] = 0` returns 0 instead. -/
theorem C1_dhi_belowHorizon_cex :
    degOf 2 > 90 ∧ (nightQC 2 0 1).2.2 ≠ qcFloor 1 := by
  refine ⟨degOf_two_gt, ?_⟩
  rw [nightQC_night 2 0 1 degOf_two_gt]
  norm_num [qcFloor]

/-- C1, amended: whenever the zenith angle exceeds 90 degrees,
`clear_sky_REST2V5` forces DNI and the direct-horizontal irradiance to
zero, and also forces DHI (hence GHI) to zero: DHI is subject to the
below-horizon rule as well as to the negative-value floor. -/
theorem C1_night_zero (θ eext p w o n aod α ρ b d : ℝ)
    (h : degOf θ > 90) :
    dniAfter θ b = 0 ∧ ebhAfter θ b = 0 ∧ dhiAfter θ d = 0 ∧
    clear_sky_REST2V5 θ eext p w o n aod α ρ = (0, 0, 0) := by
  refine ⟨if_pos h, if_pos h, if_pos h, ?_⟩
  obtain ⟨b', d', hbd⟩ := clear_sky_nightQC θ eext p w o n aod α ρ
  rw [hbd, nightQC_night _ _ _ h]

/-- C1, witness: the amended night-zero theorem applied at zenith angle
2 rad with concrete inputs. -/
theorem C1_night_zero_witness :
    dniAfter 2 7 = 0 ∧ ebhAfter 2 7 = 0 ∧ dhiAfter 2 5 = 0 ∧
    clear_sky_REST2V5 2 1361 1000 1 0.3 0.002 0.1 1.3 0.2 = (0, 0, 0) :=
  C1_night_zero 2 1361 1000 1 0.3 0.002 0.1 1.3 0.2 7 5 degOf_two_gt

/-- C2: every element of the three returned arrays of `clear_sky_REST2V5`
is non-negative (in the exact-real model, hence finite), and the
quality-control stage maps every element — including a NaN produced
upstream — to a non-negative real value, so no NaN survives to the
output. -/
theorem C2_range_invariant :
    (∀ θ eext p w o n aod α ρ : ℝ,
        0 ≤ (clear_sky_REST2V5 θ eext p w o n aod α ρ).1 ∧
        0 ≤ (clear_sky_REST2V5 θ eext p w o n aod α ρ).2.1 ∧
        0 ≤ (clear_sky_REST2V5 θ eext p w o n aod α ρ).2.2) ∧
    (∀ x : FVal, ∃ v : ℝ, qcStage x = FVal.val v ∧ 0 ≤ v) := by
  constructor
  · intro θ eext p w o n aod α ρ
    obtain ⟨b, d, hbd⟩ := clear_sky_nightQC θ eext p w o n aod α ρ
    rw [hbd]
    exact ⟨qcFloor_nonneg _, qcFloor_nonneg _, qcFloor_nonneg _⟩
  · intro x
    cases x with
    | nan => exact ⟨0, rfl, le_refl 0⟩
    | val v =>
      by_cases h : v < 0
      · exact ⟨0, by simp [qcStage, qcNegToNan, qcNanToZero, h], le_refl 0⟩
      · exact ⟨v, by simp [qcStage, qcNegToNan, qcNanToZero, h], le_of_not_lt h⟩

/-- C4: in the composition stage each of GHI, DNI, DHI gets the
quality-control floor applied to its own pre-value only (component-wise,
so each output is independent of the other two); the floor is the net
effect of the source's negative-to-NaN-to-zero round-trip; the concrete
case `nightQC 0 (-2) 3` shows DNI zeroed while DHI is kept. -/
theorem C4_negative_floor (θ b d : ℝ) :
    nightQC θ b d = (qcFloor (ebhAfter θ b + dhiAfter θ d),
        qcFloor (dniAfter θ b), qcFloor (dhiAfter θ d)) ∧
    (∀ v : ℝ, qcStage (FVal.val v) = FVal.val (qcFloor v)) ∧
    qcFloor (-3 : ℝ) = 0 ∧ qcFloor (5 : ℝ) = 5 ∧
    nightQC 0 (-2) 3 = (1, 0, 3) := by
  refine ⟨rfl, ?_, ?_, ?_, ?_⟩
  · intro v
    by_cases h : v < 0 <;>
      simp [qcStage, qcNegToNan, qcNanToZero, qcFloor, h]
  · norm_num [qcFloor]
  · norm_num [qcFloor]
  · norm_num [nightQC, dniAfter, ebhAfter, dhiAfter, qcFloor, degOf_zero]

/-- C5: `clear_sky_REST2V5` clamps each atmospheric field to its
documented bound — pressure to [300, 1100], water vapour to [0, 10],
ozone to [0, 0.6], NO2 to [0, 0.03], Angstrom exponent to [0, 2.5],
albedo to [0, 1] — and only the clamped value flows downstream: the call
on raw inputs equals the call on pre-clamped inputs, and Angstrom
exponent 5 is treated identically to 2.5.  The model is a total
function, so no error is raised for out-of-range values. -/
theorem C5_clamp_bounds (θ eext p w o n aod α ρ : ℝ) :
    clear_sky_REST2V5 θ eext p w o n aod α ρ =
      clear_sky_REST2V5 θ eext (clampField 1100 300 p) (clampField 10 0 w)
        (clampField 0.6 0 o) (clampField 0.03 0 n) aod (clampField 2.5 0 α)
        (clampField 1 0 ρ) ∧
    (300 ≤ clampField 1100 300 p ∧ clampField 1100 300 p ≤ 1100) ∧
    (0 ≤ clampField 10 0 w ∧ clampField 10 0 w ≤ 10) ∧
    (0 ≤ clampField 0.6 0 o ∧ clampField 0.6 0 o ≤ 0.6) ∧
    (0 ≤ clampField 0.03 0 n ∧ clampField 0.03 0 n ≤ 0.03) ∧
    (0 ≤ clampField 2.5 0 α ∧ clampField 2.5 0 α ≤ 2.5) ∧
    (0 ≤ clampField 1 0 ρ ∧ clampField 1 0 ρ ≤ 1) ∧
    clear_sky_REST2V5 θ eext p w o n aod 5 ρ =
      clear_sky_REST2V5 θ eext p w o n aod 2.5 ρ := by
  refine ⟨?_, ⟨le_clampField _ _ _, clampField_le _ _ _ (by norm_num)⟩,
    ⟨le_clampField _ _ _, clampField_le _ _ _ (by norm_num)⟩,
    ⟨le_clampField _ _ _, clampField_le _ _ _ (by norm_num)⟩,
    ⟨le_clampField _ _ _, clampField_le _ _ _ (by norm_num)⟩,
    ⟨le_clampField _ _ _, clampField_le _ _ _ (by norm_num)⟩,
    ⟨le_clampField _ _ _, clampField_le _ _ _ (by norm_num)⟩, ?_⟩
  · unfold clear_sky_REST2V5
    rw [clampField_idem 1100 300 p (by norm_num),
      clampField_idem 10 0 w (by norm_num),
      clampField_idem 0.6 0 o (by norm_num),
      clampField_idem 0.03 0 n (by norm_num),
      clampField_idem 2.5 0 α (by norm_num),
      clampField_idem 1 0 ρ (by norm_num)]
  · unfold clear_sky_REST2V5
    norm_num [clampField, maskAssignGT, maskAssignLT]

/-- C6: clamping an already-in-range value is a no-op, and for every
input clamping twice equals clamping once, at each of the six documented
atmospheric bounds. -/
theorem C6_clamp_noop_idem (x y lo hi : ℝ) (h1 : lo ≤ x) (h2 : x ≤ hi) :
    clampField hi lo x = x ∧
    clampField (2.5 : ℝ) 0 (clampField 2.5 0 y) = clampField 2.5 0 y ∧
    clampField (1100 : ℝ) 300 (clampField 1100 300 y) = clampField 1100 300 y ∧
    clampField (10 : ℝ) 0 (clampField 10 0 y) = clampField 10 0 y ∧
    clampField (0.6 : ℝ) 0 (clampField 0.6 0 y) = clampField 0.6 0 y ∧
    clampField (0.03 : ℝ) 0 (clampField 0.03 0 y) = clampField 0.03 0 y ∧
    clampField (1 : ℝ) 0 (clampField 1 0 y) = clampField 1 0 y :=
  ⟨clampField_of_mem _ _ _ h1 h2,
   clampField_idem _ _ _ (by norm_num), clampField_idem _ _ _ (by norm_num),
   clampField_idem _ _ _ (by norm_num), clampField_idem _ _ _ (by norm_num),
   clampField_idem _ _ _ (by norm_num), clampField_idem _ _ _ (by norm_num)⟩

/-- C6, witness: the no-op and idempotence theorem applied at the
in-range value 1 of the Angstrom bound and the out-of-range value -7. -/
theorem C6_clamp_noop_idem_witness :
    (0 : ℝ) ≤ 1 ∧ (1 : ℝ) ≤ 2.5 ∧
    (clampField (2.5 : ℝ) 0 1 = 1 ∧
      clampField (2.5 : ℝ) 0 (clampField 2.5 0 (-7)) = clampField 2.5 0 (-7) ∧
      clampField (1100 : ℝ) 300 (clampField 1100 300 (-7)) = clampField 1100 300 (-7) ∧
      clampField (10 : ℝ) 0 (clampField 10 0 (-7)) = clampField 10 0 (-7) ∧
      clampField (0.6 : ℝ) 0 (clampField 0.6 0 (-7)) = clampField 0.6 0 (-7) ∧
      clampField (0.03 : ℝ) 0 (clampField 0.03 0 (-7)) = clampField 0.03 0 (-7) ∧
      clampField (1 : ℝ) 0 (clampField 1 0 (-7)) = clampField 1 0 (-7)) :=
  ⟨by norm_num, by norm_num,
   C6_clamp_noop_idem 1 (-7) 0 2.5 (by norm_num) (by norm_num)⟩

/-- C8: the Angstrom turbidity is one shared value: band 1's `AB1` and
band 2's `AB2` are the same `ang_beta`, equal to
`AOD550 / 0.55 ^ (-alpha)` clamped to [0, 1.1]. -/
theorem C8_beta_shared (aod α : ℝ) :
    AB1 aod α = AB2 aod α ∧
    AB1 aod α = clampField 1.1 0 (aod / (0.55 : ℝ) ^ (-α)) ∧
    0 ≤ AB1 aod α ∧ AB1 aod α ≤ 1.1 :=
  ⟨rfl, rfl, le_clampField _ _ _, clampField_le _ _ _ (by norm_num)⟩

/-- C10: the clamping of lines 60-71 is an in-place mutation of the six
caller argument arrays: the call's final argument state holds exactly the
clamped values (which differ from the raw values, e.g. pressure 2000
becomes 1100), a second call on the mutated arguments returns the same
results and state, and the returned triple is exactly
`clear_sky_REST2V5` of the original arguments. -/
theorem C10_inplace_mutation (θ eext aod : ℝ) (a : AtmArgs) :
    (clear_sky_call θ eext aod a).2 = mutateClamp a ∧
    (mutateClamp a).pressure = clampField 1100 300 a.pressure ∧
    (mutateClamp a).water_vapour = clampField 10 0 a.water_vapour ∧
    (mutateClamp a).ozone = clampField 0.6 0 a.ozone ∧
    (mutateClamp a).nitrogen_dioxide = clampField 0.03 0 a.nitrogen_dioxide ∧
    (mutateClamp a).Angstrom_exponent = clampField 2.5 0 a.Angstrom_exponent ∧
    (mutateClamp a).surface_albedo = clampField 1 0 a.surface_albedo ∧
    (mutateClamp (AtmArgs.mk 2000 20 1 1 5 2)).pressure ≠ 2000 ∧
    clear_sky_call θ eext aod (clear_sky_call θ eext aod a).2 =
      clear_sky_call θ eext aod a ∧
    (clear_sky_call θ eext aod a).1 =
      clear_sky_REST2V5 θ eext a.pressure a.water_vapour a.ozone
        a.nitrogen_dioxide aod a.Angstrom_exponent a.surface_albedo := by
  refine ⟨rfl, rfl, rfl, rfl, rfl, rfl, rfl, ?_, ?_, rfl⟩
  · norm_num [mutateClamp, clampField, maskAssignGT, maskAssignLT]
  · simp only [clear_sky_call, mutateClamp_idem]

/-- C3: when every site's time grid equals the first site's grid, the
heterogeneous per-site path and the homogeneous batched path of `REST2v5`
produce identical `(ghi, dni, dhi)` results per (site, time), with the
collaborators answering equivalent queries identically (they are shared
element-wise functions); moreover the `same_flag` dispatch then takes the
batched path. -/
theorem C3_batch_equivalence {τ : Type} [DecidableEq τ]
    (zen : ℝ → ℝ → τ → ℝ) (eext : τ → ℝ) (atm : ℝ → ℝ → ℝ → τ → AtmOut)
    (sites : List (ℝ × ℝ × ℝ)) (grids : List (List τ)) (g : List τ)
    (hlen : grids.length = sites.length) (hall : ∀ gr ∈ grids, gr = g) :
    hetPath zen eext atm sites grids = homPath zen eext atm sites g ∧
    REST2v5run zen eext atm sites grids = homPath zen eext atm sites g := by
  refine ⟨hetPath_eq_homPath_aux zen eext atm sites grids g hlen hall, ?_⟩
  unfold REST2v5run
  rw [if_pos (sameFlag_of_all grids g hall)]
  cases grids with
  | nil =>
    have hsites : sites = [] := List.length_eq_zero.mp (by simpa using hlen.symm)
    subst hsites
    simp [homPath]
  | cons gr grest =>
    have hg : gr = g := hall gr (List.mem_cons_self _ _)
    simp [hg]

/-- C3, witness: two sites sharing the grid `[0, 1]`, with constant
collaborator functions. -/
theorem C3_batch_equivalence_witness :
    hetPath (fun _ _ _ => 0) (fun _ => 0)
        (fun _ _ _ _ => AtmOut.mk 0 0 0 0 0 0 0 0)
        [((0 : ℝ), (0 : ℝ), (0 : ℝ)), (1, 1, 0)] [[(0 : ℚ), 1], [0, 1]] =
      homPath (fun _ _ _ => 0) (fun _ => 0)
        (fun _ _ _ _ => AtmOut.mk 0 0 0 0 0 0 0 0)
        [((0 : ℝ), (0 : ℝ), (0 : ℝ)), (1, 1, 0)] [(0 : ℚ), 1] :=
  (C3_batch_equivalence (fun _ _ _ => 0) (fun _ => 0)
    (fun _ _ _ _ => AtmOut.mk 0 0 0 0 0 0 0 0)
    [((0 : ℝ), (0 : ℝ), (0 : ℝ)), (1, 1, 0)] [[(0 : ℚ), 1], [0, 1]]
    [(0 : ℚ), 1] (by decide) (by decide)).1

/-- C7, counterexample: constructing with empty (hence shape-matched,
range-satisfying) coordinate arrays raises — `np.max` over a zero-size
array fails — although the claim's error conditions are all false. -/
theorem C7_init_empty_cex :
    initREST2 [] [] = Except.error InitError.emptyReduction ∧
    List.length ([] : List ℚ) = List.length ([] : List ℚ) ∧
    (∀ x ∈ ([] : List ℚ), |x| ≤ 90) ∧
    (∀ y ∈ ([] : List ℚ), |y| ≤ 180) := by
  refine ⟨rfl, rfl, ?_, ?_⟩ <;> intro x hx <;> cases hx

/-- C7, amended: construction succeeds exactly when the coordinate array
shapes match, the arrays are non-empty (the max-reduction over an empty
array fails), every latitude has magnitude at most 90, and every
longitude has magnitude at most 180; a shape mismatch is reported as the
shape-mismatch error, before the range checks. -/
theorem C7_init_validation (lat lon : List ℚ) :
    (initREST2 lat lon = Except.ok () ↔
      (lat.length = lon.length ∧ lat ≠ [] ∧ (∀ x ∈ lat, |x| ≤ 90) ∧
        ∀ y ∈ lon, |y| ≤ 180)) ∧
    (initREST2 lat lon = Except.error InitError.shapeMismatch ↔
      lat.length ≠ lon.length) := by
  unfold initREST2
  split_ifs with h1 h2 h3 h4
  · simp [h1]
  · rw [not_ne_iff] at h1
    rw [List.isEmpty_iff] at h2
    subst h2
    refine ⟨by simp, by simp [← h1]⟩
  · rw [List.any_eq_true] at h3
    obtain ⟨x, hx, hgt⟩ := h3
    rw [decide_eq_true_eq] at hgt
    constructor
    · simp only [false_iff]
      · rintro ⟨-, -, hall, -⟩
        exact absurd (hall x hx) (not_le.mpr hgt)
    · simp [h1]
  · rw [List.any_eq_true] at h4
    obtain ⟨y, hy, hgt⟩ := h4
    rw [decide_eq_true_eq] at hgt
    constructor
    · simp only [false_iff]
      · rintro ⟨-, -, -, hall⟩
        exact absurd (hall y hy) (not_le.mpr hgt)
    · simp [h1]
  · rw [not_ne_iff] at h1
    rw [List.isEmpty_iff] at h2
    rw [List.any_eq_true] at h3 h4
    push_neg at h3 h4
    constructor
    · simp only [true_iff]
      refine ⟨h1, h2, fun x hx => ?_, fun y hy => ?_⟩
      · exact not_lt.mp (fun hgt => h3 x hx (decide_eq_true hgt))
      · exact not_lt.mp (fun hgt => h4 y hy (decide_eq_true hgt))
    · simp [h1]

/-- C7, witness: the validation theorem applied to the one-site input
latitude `[10]`, longitude `[20]`. -/
theorem C7_init_validation_witness :
    (initREST2 [10] [20] = Except.ok () ↔
      (List.length [(10 : ℚ)] = List.length [(20 : ℚ)] ∧ [(10 : ℚ)] ≠ [] ∧
        (∀ x ∈ [(10 : ℚ)], |x| ≤ 90) ∧ ∀ y ∈ [(20 : ℚ)], |y| ≤ 180)) ∧
    (initREST2 [10] [20] = Except.error InitError.shapeMismatch ↔
      List.length [(10 : ℚ)] ≠ List.length [(20 : ℚ)]) :=
  C7_init_validation [10] [20]

/-- C9: each of the four relative air masses is the reciprocal magnitude
of `cos θ + a * θdeg^b / (c - θdeg)^d` for its fitted coefficients, the
pressure-corrected variant is `(pressure / 1013.25)` times the
Rayleigh/gas air mass, and on the real domain (θdeg between 0 and the
smallest denominator constant 93.781) the complex-valued path equals the
real-power computation of the same magnitude. -/
theorem C9_air_mass (θ p : ℝ) (hp : 0 ≤ p) (h0 : 0 ≤ degOf θ)
    (h1 : degOf θ ≤ 93.781) :
    ama θ = (Complex.abs (amKernel 0.16851 0.18198 95.318 1.9542 θ))⁻¹ ∧
    amw θ = (Complex.abs (amKernel 0.10648 0.11423 93.781 1.9203 θ))⁻¹ ∧
    amo θ = (Complex.abs (amKernel 1.0651 0.6379 101.8 2.2694 θ))⁻¹ ∧
    amR θ = (Complex.abs (amKernel 0.48353 0.095846 96.741 1.754 θ))⁻¹ ∧
    amRe p θ = p / 1013.25 * amR θ ∧
    ama θ = realAirMass 0.16851 0.18198 95.318 1.9542 θ ∧
    amw θ = realAirMass 0.10648 0.11423 93.781 1.9203 θ ∧
    amo θ = realAirMass 1.0651 0.6379 101.8 2.2694 θ ∧
    amR θ = realAirMass 0.48353 0.095846 96.741 1.754 θ :=
  ⟨airMass_abs_inv _ _ _ _ _, airMass_abs_inv _ _ _ _ _,
   airMass_abs_inv _ _ _ _ _, airMass_abs_inv _ _ _ _ _,
   amRe_eq p θ hp,
   airMass_real _ _ _ _ _ h0 (by linarith),
   airMass_real _ _ _ _ _ h0 h1,
   airMass_real _ _ _ _ _ h0 (by linarith),
   airMass_real _ _ _ _ _ h0 (by linarith)⟩

/-- C9, witness: the air-mass theorem applied at zenith angle 0 rad
(0 degrees) and pressure 1. -/
theorem C9_air_mass_witness :
    (0 : ℝ) ≤ 1 ∧ (0 : ℝ) ≤ degOf 0 ∧ degOf 0 ≤ 93.781 ∧
    (ama 0 = (Complex.abs (amKernel 0.16851 0.18198 95.318 1.9542 0))⁻¹ ∧
      amw 0 = (Complex.abs (amKernel 0.10648 0.11423 93.781 1.9203 0))⁻¹ ∧
      amo 0 = (Complex.abs (amKernel 1.0651 0.6379 101.8 2.2694 0))⁻¹ ∧
      amR 0 = (Complex.abs (amKernel 0.48353 0.095846 96.741 1.754 0))⁻¹ ∧
      amRe 1 0 = 1 / 1013.25 * amR 0 ∧
      ama 0 = realAirMass 0.16851 0.18198 95.318 1.9542 0 ∧
      amw 0 = realAirMass 0.10648 0.11423 93.781 1.9203 0 ∧
      amo 0 = realAirMass 1.0651 0.6379 101.8 2.2694 0 ∧
      amR 0 = realAirMass 0.48353 0.095846 96.741 1.754 0) := by
  have hz : (0 : ℝ) ≤ degOf 0 := by rw [degOf_zero]
  have hz2 : degOf 0 ≤ 93.781 := by rw [degOf_zero]; norm_num
  exact ⟨by norm_num, hz, hz2, C9_air_mass 0 1 (by norm_num) hz hz2⟩
